import Mathlib

/-!
# Verification of the tree-asset editor state machine

Shallow embedding of the XState machine `treeMachine` defined in
`src/App.tsx` of the repository, together with the concrete asynchronous
operations (`fetchAssets`, `deleteAsset`, `addAsset`, `replaceAsset`,
`importData`) it invokes.

State nodes are modelled by the inductive `Node`; invoking nodes carry the
input snapshot computed by the `invoke.input` function when the node is
entered.  External events are processed by `machineStep`; settlements of
invoked operations (the `onDone` / `onError` transitions) are processed by
`settle`.  Both are pure functions on `MState = Node × Context`, mirroring
the transition actions of the machine literally.  `ReachW` is the set of
states reachable from the initial state under any interleaving of external
events and deliverable settlements.
-/

namespace TreeMachine

/-- Asset record type, `interface Asset` in App.tsx (lines 12-18). -/
inductive AssetType where
  | TREE
  | FUND
  | STRATEGY
deriving DecidableEq, Repr

/-- `interface Asset` (App.tsx lines 12-18). -/
structure Asset where
  id : String
  code : String
  type : AssetType
  name : String
  weight : String
deriving DecidableEq, Repr

/-- Machine context (App.tsx lines 129-133 and 175-179). -/
structure Context where
  selectedFund : Option String
  selectedAssetId : Option String
  assets : List Asset
deriving DecidableEq, Repr

/-- State nodes of the machine (App.tsx lines 181-355).  The three invoking
nodes entered from `Idle` carry the input snapshot that the `invoke.input`
function computes from the context at entry time (lines 225-233, 260-268,
288-300).  The sub-states `Idle` and `Importing data` of the composite state
`Import dialog opened` appear as `ImportDialogIdle` and `ImportingData`; the
`Done` sub-state is final and its composite `onDone` (lines 343-354)
immediately returns to the root `Idle`, so settlement of the import models
that compound transition directly. -/
inductive Node where
  | LoadingInitialData
  | Idle
  | DeletingAsset (assetId : String)
  | AddingAsset (assetId : String)
  | ReplacingAsset (oldAssetId : String) (newAssetId : String)
  | ImportDialogIdle
  | ImportingData
deriving DecidableEq, Repr

/-- A machine state: active node plus context. -/
structure MState where
  node : Node
  ctx : Context
deriving DecidableEq, Repr

/-- Initial state: `initial: "Loading initial data"` with the context of
App.tsx lines 175-179. -/
def initialState : MState :=
  ⟨.LoadingInitialData, ⟨none, none, []⟩⟩

/-- External events of the machine (App.tsx lines 134-163). -/
inductive Event where
  | SELECT_FUND (fund : String)
  | SELECT_ASSET (assetId : String)
  | UNSELECT_ASSET
  | DELETE_ASSET
  | ADD_ASSET
  | REPLACE_ASSET
  | OPEN_IMPORT_DIALOG
  | CLOSE_IMPORT_DIALOG
  | IMPORT_DATA
deriving DecidableEq, Repr

/-- Settlement of an invoked operation: the internal `xstate.done.actor` /
`xstate.error.actor` event delivered when a promise actor resolves or
rejects, carrying the actor output where the machine reads `event.output`. -/
inductive Settlement where
  | fetchDone (assets : List Asset)
  | fetchError
  | deleteDone
  | deleteError
  | addDone (output : Asset)
  | addError
  | replaceDone (output : Asset)
  | replaceError
  | importDone (assets : List Asset)
  | importError
deriving DecidableEq, Repr

/-- Processing of one external event (transition selection of App.tsx).
The root-level `on` handlers (lines 357-373) handle the three
selection-changing events in every state; they are internal transitions that
only run an `assign` action.  `DELETE_ASSET`, `ADD_ASSET`, `REPLACE_ASSET`
and `OPEN_IMPORT_DIALOG` are defined only on `Idle` (lines 200-219), with
the guards written there; on a guarded transition the target invoking node
captures the `invoke.input` snapshot.  `IMPORT_DATA` is defined only on the
dialog's `Idle` sub-state (lines 324-330); `CLOSE_IMPORT_DIALOG` is defined
on the composite `Import dialog opened` (lines 347-351), so in each of its
sub-states, targeting the root `Idle`.  An event with no enabled transition
is ignored. -/
def machineStep (s : MState) : Event → MState
  | .SELECT_FUND fund => ⟨s.node, { s.ctx with selectedFund := some fund }⟩
  | .SELECT_ASSET assetId => ⟨s.node, { s.ctx with selectedAssetId := some assetId }⟩
  | .UNSELECT_ASSET => ⟨s.node, { s.ctx with selectedAssetId := none }⟩
  | .DELETE_ASSET =>
    match s.node, s.ctx.selectedAssetId with
    | .Idle, some assetId => ⟨.DeletingAsset assetId, s.ctx⟩
    | _, _ => s
  | .ADD_ASSET =>
    match s.node, s.ctx.selectedFund with
    | .Idle, some fund => ⟨.AddingAsset fund, s.ctx⟩
    | _, _ => s
  | .REPLACE_ASSET =>
    match s.node, s.ctx.selectedAssetId, s.ctx.selectedFund with
    | .Idle, some assetId, some fund => ⟨.ReplacingAsset assetId fund, s.ctx⟩
    | _, _, _ => s
  | .OPEN_IMPORT_DIALOG =>
    match s.node with
    | .Idle => ⟨.ImportDialogIdle, s.ctx⟩
    | _ => s
  | .CLOSE_IMPORT_DIALOG =>
    match s.node with
    | .ImportDialogIdle => ⟨.Idle, s.ctx⟩
    | .ImportingData => ⟨.Idle, s.ctx⟩
    | _ => s
  | .IMPORT_DATA =>
    match s.node with
    | .ImportDialogIdle => ⟨.ImportingData, s.ctx⟩
    | _ => s

/-- Processing of one operation settlement: the `onDone` / `onError`
transitions of the five `invoke`s (App.tsx lines 186-197, 234-253, 269-281,
301-317, 334-341).  Every `assign` property reads the pre-transition
context, as XState's `assign` does, so the `filter` in the delete and
replace `onDone`/`onError` actions uses `context.selectedAssetId` as it is
at settlement time.  `Importing data` defines no `onError` (lines 331-341),
so `importError` matches no transition; a settlement that does not
correspond to the active node's invocation is likewise ignored. -/
def settle (s : MState) : Settlement → MState
  | .fetchDone assets =>
    match s.node with
    | .LoadingInitialData => ⟨.Idle, { s.ctx with assets := assets }⟩
    | _ => s
  | .fetchError =>
    match s.node with
    | .LoadingInitialData => ⟨.Idle, { s.ctx with assets := [] }⟩
    | _ => s
  | .deleteDone =>
    match s.node with
    | .DeletingAsset _ =>
      ⟨.Idle, { s.ctx with
        selectedAssetId := none,
        assets := s.ctx.assets.filter fun asset =>
          some asset.id != s.ctx.selectedAssetId }⟩
    | _ => s
  | .deleteError =>
    match s.node with
    | .DeletingAsset _ =>
      ⟨.Idle, { s.ctx with
        selectedAssetId := none,
        assets := s.ctx.assets.filter fun asset =>
          some asset.id != s.ctx.selectedAssetId }⟩
    | _ => s
  | .addDone output =>
    match s.node with
    | .AddingAsset _ =>
      ⟨.Idle, { s.ctx with
        selectedFund := none,
        assets := s.ctx.assets ++ [output] }⟩
    | _ => s
  | .addError =>
    match s.node with
    | .AddingAsset _ => ⟨.Idle, { s.ctx with selectedFund := none }⟩
    | _ => s
  | .replaceDone output =>
    match s.node with
    | .ReplacingAsset _ _ =>
      ⟨.Idle, { s.ctx with
        selectedAssetId := none,
        selectedFund := none,
        assets := (s.ctx.assets.filter fun asset =>
          some asset.id != s.ctx.selectedAssetId) ++ [output] }⟩
    | _ => s
  | .replaceError =>
    match s.node with
    | .ReplacingAsset _ _ =>
      ⟨.Idle, { s.ctx with selectedAssetId := none, selectedFund := none }⟩
    | _ => s
  | .importDone assets =>
    match s.node with
    | .ImportingData => ⟨.Idle, { s.ctx with assets := s.ctx.assets ++ assets }⟩
    | _ => s
  | .importError => s

/-- The seeded assets returned by the `fetchAssets` promise actor when the
URL does not request the empty variant (App.tsx lines 29-60). -/
def fetchedAssets : List Asset :=
  [⟨"1", "123aq1", .TREE, "Tree A", "10%"⟩,
   ⟨"2", "456aq2", .STRATEGY, "Strategy B", "20%"⟩,
   ⟨"3", "789aq3", .FUND, "Fund C", "30%"⟩,
   ⟨"4", "101aq4", .FUND, "Fund D", "70%"⟩]

/-- Output of the `addAsset` promise actor for input `{ assetId }`
(App.tsx lines 71-85). -/
def addAssetOutput (assetId : String) : Asset :=
  ⟨assetId, "new-code", .FUND, assetId, "50%"⟩

/-- Output of the `replaceAsset` promise actor for input
`{ oldAssetId, newAssetId }` (App.tsx lines 87-102); only `newAssetId`
appears in the result. -/
def replaceAssetOutput (newAssetId : String) : Asset :=
  ⟨newAssetId, "new-code", .FUND, newAssetId, "50%"⟩

/-- Assets returned by the `importData` promise actor (App.tsx lines
104-125). -/
def importedAssets : List Asset :=
  [⟨"5", "new-code", .FUND, "New Fund", "50%"⟩,
   ⟨"6", "new-code-2", .FUND, "New Fund 2", "50%"⟩]

/-- Which settlements the invoked operations can deliver in a given state:
the node must be the invoking node of the operation, and a success carries
the output the concrete actor produces for the input captured in that node.
Every operation is an AsyncOperation that may also fail. -/
inductive Deliverable : MState → Settlement → Prop where
  | fetchSeeded {s : MState} (h : s.node = .LoadingInitialData) :
      Deliverable s (.fetchDone fetchedAssets)
  | fetchEmpty {s : MState} (h : s.node = .LoadingInitialData) :
      Deliverable s (.fetchDone [])
  | fetchFail {s : MState} (h : s.node = .LoadingInitialData) :
      Deliverable s .fetchError
  | deleteOk {s : MState} {assetId : String} (h : s.node = .DeletingAsset assetId) :
      Deliverable s .deleteDone
  | deleteFail {s : MState} {assetId : String} (h : s.node = .DeletingAsset assetId) :
      Deliverable s .deleteError
  | addOk {s : MState} {assetId : String} (h : s.node = .AddingAsset assetId) :
      Deliverable s (.addDone (addAssetOutput assetId))
  | addFail {s : MState} {assetId : String} (h : s.node = .AddingAsset assetId) :
      Deliverable s .addError
  | replaceOk {s : MState} {oldAssetId newAssetId : String}
      (h : s.node = .ReplacingAsset oldAssetId newAssetId) :
      Deliverable s (.replaceDone (replaceAssetOutput newAssetId))
  | replaceFail {s : MState} {oldAssetId newAssetId : String}
      (h : s.node = .ReplacingAsset oldAssetId newAssetId) :
      Deliverable s .replaceError
  | importOk {s : MState} (h : s.node = .ImportingData) :
      Deliverable s (.importDone importedAssets)
  | importFail {s : MState} (h : s.node = .ImportingData) :
      Deliverable s .importError

/-- States reachable from `initialState` by external events and deliverable
settlements, every settlement along the trace satisfying `P`. -/
inductive ReachW (P : Settlement → Prop) : MState → Prop where
  | init : ReachW P initialState
  | ev {s : MState} (e : Event) (hs : ReachW P s) : ReachW P (machineStep s e)
  | deliver {s : MState} {r : Settlement} (hs : ReachW P s)
      (hd : Deliverable s r) (hp : P r) : ReachW P (settle s r)

/-- Reachability with no restriction on settlements. -/
abbrev Reach (s : MState) : Prop := ReachW (fun _ => True) s

/-- `state.hasTag("Synchronizing")`: which nodes declare
`tags: "Synchronizing"` in App.tsx.  `Loading initial data` (line 183),
`Deleting asset` (line 222), `Adding asset` (line 257) and
`Replacing asset` (line 285) do; no other state node declares any tag —
in particular `Importing data` (lines 331-342) does not. -/
def hasSynchronizingTag : Node → Bool
  | .LoadingInitialData => true
  | .DeletingAsset _ => true
  | .AddingAsset _ => true
  | .ReplacingAsset _ _ => true
  | _ => false

/-- Whether an asynchronous operation is in flight: the node has an
`invoke` (the four root invoking states and the dialog's `Importing data`
sub-state). -/
def operationInFlight : Node → Bool
  | .LoadingInitialData => true
  | .DeletingAsset _ => true
  | .AddingAsset _ => true
  | .ReplacingAsset _ _ => true
  | .ImportingData => true
  | _ => false

/-- `state.can({ type: e })` (queried in App.tsx lines 391-393): true iff
some transition for the event is defined from the current configuration and
its guard passes.  The selection events are handled by unguarded root-level
transitions (lines 357-373) and so are always possible; the four `Idle`
transitions are guarded as in lines 200-219; the dialog events follow lines
324-330 and 347-351. -/
def canEvent (s : MState) : Event → Bool
  | .SELECT_FUND _ => true
  | .SELECT_ASSET _ => true
  | .UNSELECT_ASSET => true
  | .DELETE_ASSET => s.node == .Idle && s.ctx.selectedAssetId.isSome
  | .ADD_ASSET => s.node == .Idle && s.ctx.selectedFund.isSome
  | .REPLACE_ASSET =>
      s.node == .Idle && s.ctx.selectedAssetId.isSome && s.ctx.selectedFund.isSome
  | .OPEN_IMPORT_DIALOG => s.node == .Idle
  | .CLOSE_IMPORT_DIALOG => s.node == .ImportDialogIdle || s.node == .ImportingData
  | .IMPORT_DATA => s.node == .ImportDialogIdle

/-- A settlement that appends to the asset collection: success of the
add-one, replace-one or import-many operation. -/
def isAppendSettlement : Settlement → Bool
  | .addDone _ => true
  | .replaceDone _ => true
  | .importDone _ => true
  | _ => false

/-! ## Helper lemmas -/

/-- No external event transition action touches the asset collection: only
operation settlements mutate it. -/
lemma machineStep_assets (s : MState) (e : Event) :
    (machineStep s e).ctx.assets = s.ctx.assets := by
  rcases s with ⟨n, c⟩
  cases e <;> simp only [machineStep] <;> try rfl
  all_goals split <;> rfl

/-- Filtering out the id of an unset selection removes nothing: an asset id
compared against `none` is never equal to it. -/
lemma filter_id_ne_none (l : List Asset) :
    (l.filter fun asset => some asset.id != (none : Option String)) = l := by
  induction l with
  | nil => rfl
  | cons a t ih => exact congrArg (List.cons a) ih

/-! ## Claim theorems -/

/-- C3: whenever `DELETE_ASSET` fires from `Idle` (its guard requires
`selectedAssetId` to be set), the delete-one operation's failure is handled
identically to its success — the `onError` transition of `Deleting asset`
equals its `onDone` transition on every context — and in both cases the
asset whose id equals `selectedAssetId` is removed from the store,
`selectedAssetId` is cleared, and the machine returns to `Idle`. -/
theorem delete_failure_handled_like_success (ctx ctx' : Context) (a c : String)
    (h : ctx.selectedAssetId = some a) :
    machineStep ⟨.Idle, ctx⟩ .DELETE_ASSET = ⟨.DeletingAsset a, ctx⟩ ∧
    settle ⟨.DeletingAsset c, ctx'⟩ .deleteError
      = settle ⟨.DeletingAsset c, ctx'⟩ .deleteDone ∧
    settle ⟨.DeletingAsset a, ctx⟩ .deleteDone
      = ⟨.Idle, ⟨ctx.selectedFund, none,
          ctx.assets.filter fun asset => some asset.id != some a⟩⟩ := by
  obtain ⟨sf, sa, as⟩ := ctx
  cases h
  exact ⟨rfl, rfl, rfl⟩

/-- Witness for C3 at a concrete context: asset "2" selected among the four
seeded assets. -/
theorem delete_failure_handled_like_success_witness :
    machineStep ⟨.Idle, ⟨none, some "2", fetchedAssets⟩⟩ .DELETE_ASSET
      = ⟨.DeletingAsset "2", ⟨none, some "2", fetchedAssets⟩⟩ ∧
    settle ⟨.DeletingAsset "2", ⟨none, some "2", fetchedAssets⟩⟩ .deleteError
      = settle ⟨.DeletingAsset "2", ⟨none, some "2", fetchedAssets⟩⟩ .deleteDone ∧
    settle ⟨.DeletingAsset "2", ⟨none, some "2", fetchedAssets⟩⟩ .deleteDone
      = ⟨.Idle, ⟨none, none,
          fetchedAssets.filter fun asset => some asset.id != some "2"⟩⟩ :=
  delete_failure_handled_like_success ⟨none, some "2", fetchedAssets⟩
    ⟨none, some "2", fetchedAssets⟩ "2" "2" rfl

/-- C4: the import-many invocation defines no `onError` transition, so a
failure of the import delivered in `Importing data` causes no transition —
the machine stays in `Importing data` with its context unchanged — while
every failure of the other four operations lands in the defined state
`Idle`; no failure is fatal to the machine. -/
theorem import_failure_has_no_transition (ctx : Context) (a o n : String) :
    settle ⟨.ImportingData, ctx⟩ .importError = ⟨.ImportingData, ctx⟩ ∧
    (settle ⟨.LoadingInitialData, ctx⟩ .fetchError).node = .Idle ∧
    (settle ⟨.DeletingAsset a, ctx⟩ .deleteError).node = .Idle ∧
    (settle ⟨.AddingAsset a, ctx⟩ .addError).node = .Idle ∧
    (settle ⟨.ReplacingAsset o n, ctx⟩ .replaceError).node = .Idle :=
  ⟨rfl, rfl, rfl, rfl, rfl⟩

/-- C8: when the add-one operation fails, only `selectedFund` is cleared —
the asset collection and `selectedAssetId` are untouched and nothing is
appended; when the replace-one operation fails, only `selectedAssetId` and
`selectedFund` are cleared and the asset collection is untouched; both land
in `Idle`. -/
theorem add_replace_failure_rolls_back_selection_only (ctx : Context) (f a b : String) :
    settle ⟨.AddingAsset f, ctx⟩ .addError
      = ⟨.Idle, { ctx with selectedFund := none }⟩ ∧
    settle ⟨.ReplacingAsset a b, ctx⟩ .replaceError
      = ⟨.Idle, { ctx with selectedAssetId := none, selectedFund := none }⟩ :=
  ⟨rfl, rfl⟩

/-- C9: when `REPLACE_ASSET` fires from `Idle` — its guard requires both
`selectedAssetId` and `selectedFund` set — and the replace-one operation
succeeds with the output the `replaceAsset` actor produces for the captured
input, the asset whose id equals `selectedAssetId` is removed, the output
asset is appended, both selections are cleared, and the machine is back in
`Idle`. -/
theorem replace_success_removes_and_appends (ctx : Context) (a f : String)
    (ha : ctx.selectedAssetId = some a) (hf : ctx.selectedFund = some f) :
    machineStep ⟨.Idle, ctx⟩ .REPLACE_ASSET = ⟨.ReplacingAsset a f, ctx⟩ ∧
    settle ⟨.ReplacingAsset a f, ctx⟩ (.replaceDone (replaceAssetOutput f))
      = ⟨.Idle, ⟨none, none,
          (ctx.assets.filter fun asset => some asset.id != some a)
            ++ [replaceAssetOutput f]⟩⟩ := by
  obtain ⟨sf, sa, as⟩ := ctx
  cases ha
  cases hf
  exact ⟨rfl, rfl⟩

/-- Witness for C9: asset "3" selected, fund "FUND X" selected, seeded
store. -/
theorem replace_success_removes_and_appends_witness :
    machineStep ⟨.Idle, ⟨some "FUND X", some "3", fetchedAssets⟩⟩ .REPLACE_ASSET
      = ⟨.ReplacingAsset "3" "FUND X", ⟨some "FUND X", some "3", fetchedAssets⟩⟩ ∧
    settle ⟨.ReplacingAsset "3" "FUND X", ⟨some "FUND X", some "3", fetchedAssets⟩⟩
        (.replaceDone (replaceAssetOutput "FUND X"))
      = ⟨.Idle, ⟨none, none,
          (fetchedAssets.filter fun asset => some asset.id != some "3")
            ++ [replaceAssetOutput "FUND X"]⟩⟩ :=
  replace_success_removes_and_appends ⟨some "FUND X", some "3", fetchedAssets⟩
    "3" "FUND X" rfl rfl

/-- C6: the input of each invoking state is the snapshot computed from the
context at the moment the state is entered — `DELETE_ASSET` captures the
current `selectedAssetId`, `ADD_ASSET` the current `selectedFund`,
`REPLACE_ASSET` both — and the selection-changing events `SELECT_ASSET`,
`SELECT_FUND` and `UNSELECT_ASSET` are accepted in every state `n`
(invoking states included), changing only the selection fields and leaving
the node, hence any captured operation input, untouched. -/
theorem invoke_input_is_entry_snapshot (ctx : Context) (n : Node) (a f x g : String)
    (ha : ctx.selectedAssetId = some a) (hf : ctx.selectedFund = some f) :
    machineStep ⟨.Idle, ctx⟩ .DELETE_ASSET = ⟨.DeletingAsset a, ctx⟩ ∧
    machineStep ⟨.Idle, ctx⟩ .ADD_ASSET = ⟨.AddingAsset f, ctx⟩ ∧
    machineStep ⟨.Idle, ctx⟩ .REPLACE_ASSET = ⟨.ReplacingAsset a f, ctx⟩ ∧
    machineStep ⟨n, ctx⟩ (.SELECT_ASSET x) = ⟨n, { ctx with selectedAssetId := some x }⟩ ∧
    machineStep ⟨n, ctx⟩ (.SELECT_FUND g) = ⟨n, { ctx with selectedFund := some g }⟩ ∧
    machineStep ⟨n, ctx⟩ .UNSELECT_ASSET = ⟨n, { ctx with selectedAssetId := none }⟩ := by
  obtain ⟨sf, sa, as⟩ := ctx
  cases ha
  cases hf
  exact ⟨rfl, rfl, rfl, rfl, rfl, rfl⟩

/-- Witness for C6: selections "2" / "FUND Y", re-selection events applied
in the invoking node `DeletingAsset "2"`, whose captured input survives. -/
theorem invoke_input_is_entry_snapshot_witness :
    machineStep ⟨.Idle, ⟨some "FUND Y", some "2", []⟩⟩ .DELETE_ASSET
      = ⟨.DeletingAsset "2", ⟨some "FUND Y", some "2", []⟩⟩ ∧
    machineStep ⟨.Idle, ⟨some "FUND Y", some "2", []⟩⟩ .ADD_ASSET
      = ⟨.AddingAsset "FUND Y", ⟨some "FUND Y", some "2", []⟩⟩ ∧
    machineStep ⟨.Idle, ⟨some "FUND Y", some "2", []⟩⟩ .REPLACE_ASSET
      = ⟨.ReplacingAsset "2" "FUND Y", ⟨some "FUND Y", some "2", []⟩⟩ ∧
    machineStep ⟨.DeletingAsset "2", ⟨some "FUND Y", some "2", []⟩⟩ (.SELECT_ASSET "9")
      = ⟨.DeletingAsset "2", ⟨some "FUND Y", some "9", []⟩⟩ ∧
    machineStep ⟨.DeletingAsset "2", ⟨some "FUND Y", some "2", []⟩⟩ (.SELECT_FUND "G")
      = ⟨.DeletingAsset "2", ⟨some "G", some "2", []⟩⟩ ∧
    machineStep ⟨.DeletingAsset "2", ⟨some "FUND Y", some "2", []⟩⟩ .UNSELECT_ASSET
      = ⟨.DeletingAsset "2", ⟨some "FUND Y", none, []⟩⟩ :=
  invoke_input_is_entry_snapshot ⟨some "FUND Y", some "2", []⟩ (.DeletingAsset "2")
    "2" "FUND Y" "9" "G" rfl rfl

/-- C7: when a delete-one or replace-one settlement is processed, the asset
removed from the store is the one whose id equals `selectedAssetId` at
settlement time — the ids `captured`, `old`, `new` taken as the operation's
input at invocation do not occur in the result — and if the selection was
cleared in the meantime (`selectedAssetId = none`) no asset is removed at
all. -/
theorem settlement_removes_currently_selected (ctx ctxU : Context)
    (captured old new b : String) (o : Asset)
    (hb : ctx.selectedAssetId = some b) (hu : ctxU.selectedAssetId = none) :
    settle ⟨.DeletingAsset captured, ctx⟩ .deleteDone
      = ⟨.Idle, ⟨ctx.selectedFund, none,
          ctx.assets.filter fun asset => some asset.id != some b⟩⟩ ∧
    settle ⟨.DeletingAsset captured, ctxU⟩ .deleteDone = ⟨.Idle, ctxU⟩ ∧
    settle ⟨.ReplacingAsset old new, ctx⟩ (.replaceDone o)
      = ⟨.Idle, ⟨none, none,
          (ctx.assets.filter fun asset => some asset.id != some b) ++ [o]⟩⟩ ∧
    settle ⟨.ReplacingAsset old new, ctxU⟩ (.replaceDone o)
      = ⟨.Idle, ⟨none, none, ctxU.assets ++ [o]⟩⟩ := by
  obtain ⟨sf, sa, as⟩ := ctx
  cases hb
  obtain ⟨sfU, saU, asU⟩ := ctxU
  cases hu
  refine ⟨rfl, ?_, rfl, ?_⟩
  · simp only [settle, filter_id_ne_none]
  · simp only [settle, filter_id_ne_none]

/-- Witness for C7: operation input captured "1" while the settlement-time
selection is "4" (first context) or cleared (second context). -/
theorem settlement_removes_currently_selected_witness :
    settle ⟨.DeletingAsset "1", ⟨none, some "4", fetchedAssets⟩⟩ .deleteDone
      = ⟨.Idle, ⟨none, none,
          fetchedAssets.filter fun asset => some asset.id != some "4"⟩⟩ ∧
    settle ⟨.DeletingAsset "1", ⟨none, none, fetchedAssets⟩⟩ .deleteDone
      = ⟨.Idle, ⟨none, none, fetchedAssets⟩⟩ ∧
    settle ⟨.ReplacingAsset "1" "F", ⟨none, some "4", fetchedAssets⟩⟩
        (.replaceDone (replaceAssetOutput "F"))
      = ⟨.Idle, ⟨none, none,
          (fetchedAssets.filter fun asset => some asset.id != some "4")
            ++ [replaceAssetOutput "F"]⟩⟩ ∧
    settle ⟨.ReplacingAsset "1" "F", ⟨none, none, fetchedAssets⟩⟩
        (.replaceDone (replaceAssetOutput "F"))
      = ⟨.Idle, ⟨none, none, fetchedAssets ++ [replaceAssetOutput "F"]⟩⟩ :=
  settlement_removes_currently_selected ⟨none, some "4", fetchedAssets⟩
    ⟨none, none, fetchedAssets⟩ "1" "1" "F" "4" (replaceAssetOutput "F") rfl rfl

/-- C10: `CLOSE_IMPORT_DIALOG` is accepted in both live sub-states of
the import dialog (`Idle` and `Importing data`), returning to the root `Idle`
with the context — in particular the asset collection — unchanged; a
pending import success that settles in any node other than
`Importing data` matches no transition and mutates nothing. -/
theorem close_import_dialog_abandons_import (ctx : Context) (xs : List Asset)
    (n : Node) (hn : n ≠ .ImportingData) :
    machineStep ⟨.ImportDialogIdle, ctx⟩ .CLOSE_IMPORT_DIALOG = ⟨.Idle, ctx⟩ ∧
    machineStep ⟨.ImportingData, ctx⟩ .CLOSE_IMPORT_DIALOG = ⟨.Idle, ctx⟩ ∧
    settle ⟨n, ctx⟩ (.importDone xs) = ⟨n, ctx⟩ := by
  refine ⟨rfl, rfl, ?_⟩
  cases n <;> first | rfl | exact absurd rfl hn

/-- Witness for C10: closing during `Importing data` over the seeded
store, with the abandoned result `importedAssets` settling in root
`Idle`. -/
theorem close_import_dialog_abandons_import_witness :
    machineStep ⟨.ImportDialogIdle, ⟨none, none, fetchedAssets⟩⟩ .CLOSE_IMPORT_DIALOG
      = ⟨.Idle, ⟨none, none, fetchedAssets⟩⟩ ∧
    machineStep ⟨.ImportingData, ⟨none, none, fetchedAssets⟩⟩ .CLOSE_IMPORT_DIALOG
      = ⟨.Idle, ⟨none, none, fetchedAssets⟩⟩ ∧
    settle ⟨.Idle, ⟨none, none, fetchedAssets⟩⟩ (.importDone importedAssets)
      = ⟨.Idle, ⟨none, none, fetchedAssets⟩⟩ :=
  close_import_dialog_abandons_import ⟨none, none, fetchedAssets⟩ importedAssets
    .Idle (by decide)

/-- The state reached by selecting asset "1" while the initial fetch is
still in flight: the `SELECT_ASSET` root handler fires in
`Loading initial data`. -/
def selectedWhileLoading : MState :=
  machineStep initialState (.SELECT_ASSET "1")

/-- C2 counterexample: `selectedWhileLoading` is a reachable state in which
`selectedAssetId` is set and yet `can(DELETE_ASSET)` is `false` — the
`DELETE_ASSET` transition exists only on `Idle` — so "in every reachable
machine state, `can(DELETE_ASSET)` is true iff `selectedAssetId` is set"
fails. -/
theorem can_delete_not_iff_selection_everywhere :
    Reach selectedWhileLoading ∧
    selectedWhileLoading.ctx.selectedAssetId.isSome = true ∧
    canEvent selectedWhileLoading .DELETE_ASSET = false :=
  ⟨ReachW.ev (.SELECT_ASSET "1") ReachW.init, rfl, rfl⟩

/-- C2 amended: in the `Idle` state, `can(DELETE_ASSET)` is true iff
`selectedAssetId` is set, `can(ADD_ASSET)` iff `selectedFund` is set, and
`can(REPLACE_ASSET)` iff both are set. -/
theorem can_iff_selection_in_idle (ctx : Context) :
    (canEvent ⟨.Idle, ctx⟩ .DELETE_ASSET = true ↔ ctx.selectedAssetId.isSome = true) ∧
    (canEvent ⟨.Idle, ctx⟩ .ADD_ASSET = true ↔ ctx.selectedFund.isSome = true) ∧
    (canEvent ⟨.Idle, ctx⟩ .REPLACE_ASSET = true ↔
      (ctx.selectedAssetId.isSome = true ∧ ctx.selectedFund.isSome = true)) := by
  simp [canEvent]

/-- The state reached by opening the import dialog over the seeded store
and starting an import: the import-many operation is in flight. -/
def importingState : MState :=
  machineStep
    (machineStep (settle initialState (.fetchDone fetchedAssets)) .OPEN_IMPORT_DIALOG)
    .IMPORT_DATA

/-- C5 counterexample: `importingState` is a reachable state in which
the import-many operation is in flight and yet `hasTag("Synchronizing")` is
`false`, because the `Importing data` sub-state declares no tag; so the tag
does not hold exactly when an asynchronous operation is in flight. -/
theorem importing_lacks_synchronizing_tag :
    Reach importingState ∧
    operationInFlight importingState.node = true ∧
    hasSynchronizingTag importingState.node = false :=
  ⟨ReachW.ev .IMPORT_DATA
      (ReachW.ev .OPEN_IMPORT_DIALOG
        (ReachW.deliver ReachW.init (.fetchSeeded rfl) trivial)),
    rfl, rfl⟩

/-- C5 amended: the `Synchronizing` tag is carried exactly by the four
root-level invoking states — `hasTag("Synchronizing")` is true iff an
asynchronous operation is in flight in a node other than the dialog's
`Importing data` sub-state, which carries no tag. -/
theorem synchronizing_tag_iff_root_invoking (n : Node) :
    hasSynchronizingTag n = true ↔
      (operationInFlight n = true ∧ n ≠ .ImportingData) := by
  cases n <;> simp [hasSynchronizingTag, operationInFlight]

/-- The state reached by running the bulk import to success twice in a row
from the seeded store. -/
def doubleImportState : MState :=
  settle
    (machineStep
      (machineStep
        (settle
          (machineStep
            (machineStep (settle initialState (.fetchDone fetchedAssets))
              .OPEN_IMPORT_DIALOG)
            .IMPORT_DATA)
          (.importDone importedAssets))
        .OPEN_IMPORT_DIALOG)
      .IMPORT_DATA)
    (.importDone importedAssets)

/-- C1 counterexample: `doubleImportState` is reachable — fetch succeeds
with the seeded assets, then two successful imports each append ids "5" and
"6" without deduplication — and its asset collection contains two records
with id "5" (and two with id "6"), so id-uniqueness is not an invariant of
all reachable states. -/
theorem reachable_duplicate_ids :
    Reach doubleImportState ∧
    ¬ (doubleImportState.ctx.assets.map Asset.id).Nodup :=
  ⟨ReachW.deliver
      (ReachW.ev .IMPORT_DATA
        (ReachW.ev .OPEN_IMPORT_DIALOG
          (ReachW.deliver
            (ReachW.ev .IMPORT_DATA
              (ReachW.ev .OPEN_IMPORT_DIALOG
                (ReachW.deliver ReachW.init (.fetchSeeded rfl) trivial)))
            (.importOk rfl) trivial)))
      (.importOk rfl) trivial,
    by decide⟩

/-- C1 amended: id-uniqueness is an invariant of every state reachable
without settling any appending operation successfully — the fetch seeds
pairwise distinct ids, external events never touch the asset collection,
and the delete settlements only filter it — while the add-one, replace-one
and import-many successes append without deduplication and can break it
(see the C1 counterexample). -/
theorem ids_nodup_without_append_settlements (s : MState)
    (hr : ReachW (fun r => isAppendSettlement r = false) s) :
    (s.ctx.assets.map Asset.id).Nodup := by
  induction hr with
  | init => exact List.nodup_nil
  | ev e hs ih => rw [machineStep_assets]; exact ih
  | @deliver s r hs hd hp ih =>
    cases hd with
    | fetchSeeded h =>
      simp only [settle, h]
      exact of_decide_eq_true rfl
    | fetchEmpty h =>
      simp only [settle, h]
      exact List.nodup_nil
    | fetchFail h =>
      simp only [settle, h]
      exact List.nodup_nil
    | deleteOk h =>
      simp only [settle, h]
      exact ih.sublist ((List.filter_sublist _).map Asset.id)
    | deleteFail h =>
      simp only [settle, h]
      exact ih.sublist ((List.filter_sublist _).map Asset.id)
    | addOk h => exact Bool.noConfusion hp
    | addFail h =>
      simp only [settle, h]
      exact ih
    | replaceOk h => exact Bool.noConfusion hp
    | replaceFail h =>
      simp only [settle, h]
      exact ih
    | importOk h => exact Bool.noConfusion hp
    | importFail h => exact ih

/-- Witness for the amended C1: the invariant holds at the state reached by
a successful fetch followed by deleting the selected asset "2". -/
theorem ids_nodup_without_append_settlements_witness :
    ((settle
        (machineStep
          (machineStep (settle initialState (.fetchDone fetchedAssets))
            (.SELECT_ASSET "2"))
          .DELETE_ASSET)
        .deleteDone).ctx.assets.map Asset.id).Nodup :=
  ids_nodup_without_append_settlements _
    (ReachW.deliver
      (ReachW.ev .DELETE_ASSET
        (ReachW.ev (.SELECT_ASSET "2")
          (ReachW.deliver ReachW.init (.fetchSeeded rfl) rfl)))
      (.deleteOk rfl) rfl)

end TreeMachine
